import Mathlib

/-!
Verification of the TTS evaluation platform's synthesis-instrumentation core
(`backend/api/services.py`, percentile aggregation from `backend/api/views.py`).

Modelling conventions:
* Python `float` timing/throughput arithmetic is embedded as exact rationals
  (`ℚ`); every property verified here is an exact-arithmetic relationship
  between the values the code assigns, not a floating-point rounding fact.
* Python `None` becomes `Option.none`; Python truthiness tests on numbers
  (`if self.audio_duration:`) are embedded as the corresponding
  "present and nonzero" tests, and on lists as non-emptiness.
* `statistics.stdev` returns the square root of the Bessel-corrected sample
  variance.  To stay inside computable exact arithmetic the metrics record
  stores the square of the jitter (`playback_jitter_sq`); since standard
  deviations are non-negative, two jitter values are equal iff their squares
  are, so every claim about the jitter can be settled on the squares.  Where
  a disequality of actual standard deviations is needed it is derived from
  the variance disequality via strict monotonicity of `Real.sqrt`.
* Wall-clock reads (`time.perf_counter() * 1000`) and network traffic are
  modelled as an explicit environment: the timestamps observed at each
  capture point and the transport outcome (an exception, or a response with
  status/body/chunks) are inputs to the embedded function.
-/

/-! ## Numeric helpers mirroring the `statistics` module -/

/-- Sum of a list of rationals. -/
def sumQ (xs : List ℚ) : ℚ := xs.foldr (· + ·) 0

/-- Embeds `statistics.mean`: sum divided by length.  The code only applies it to
non-empty lists (it raises on empty input; every call site guards). -/
def meanQ (xs : List ℚ) : ℚ := sumQ xs / (xs.length : ℚ)

/-- The square of `statistics.stdev`: the Bessel-corrected sample variance,
sum of squared deviations from the mean divided by `n - 1`.  The code only
applies it to lists with at least two elements. -/
def sampleVarianceQ (xs : List ℚ) : ℚ :=
  sumQ (xs.map fun x => (x - meanQ xs) ^ 2) / ((xs.length : ℚ) - 1)

/-- Modelled from the spec: the *population* variance (divide by `n`), the
square of the "population standard deviation" the spec says the jitter is.
Present only to compare against what the code computes. -/
def populationVarianceQ (xs : List ℚ) : ℚ :=
  sumQ (xs.map fun x => (x - meanQ xs) ^ 2) / (xs.length : ℚ)

/-- Python `min(delays)` over a non-empty list (0 on empty input, which the code
never reaches: every call site guards on non-emptiness). -/
def listMin : List ℚ → ℚ
  | [] => 0
  | x :: xs => xs.foldl min x

/-- Python `max(delays)` over a non-empty list (0 on empty input, never reached). -/
def listMax : List ℚ → ℚ
  | [] => 0
  | x :: xs => xs.foldl max x

/-- The loop `for i in range(1, len(ct)): delays.append(ct[i] - ct[i-1])`:
the list of consecutive differences. -/
def consecutiveDeltas : List ℚ → List ℚ
  | a :: b :: rest => (b - a) :: consecutiveDeltas (b :: rest)
  | _ => []

/-! ## `TTSMetrics` (services.py lines 50–105) -/

/-- The `TTSMetrics` dataclass.  Field-for-field transcription; the one
representational change is `playback_jitter_sq`, which stores the square of
the code's `playback_jitter` (see the header comment). -/
structure TTSMetrics where
  time_to_first_byte : Option ℚ := none
  time_to_first_audio : Option ℚ := none
  total_synthesis_time : Option ℚ := none
  network_latency : Option ℚ := none
  audio_duration : Option ℚ := none
  audio_size : Option ℕ := none
  audio_format : String := "mp3"
  sample_rate : Option ℕ := none
  bitrate : Option ℕ := none
  is_streaming : Bool := false
  chunk_count : Option ℕ := none
  avg_chunk_size : Option ℚ := none
  chunk_timings : List ℚ := []
  playback_jitter_sq : Option ℚ := none
  min_chunk_delay : Option ℚ := none
  max_chunk_delay : Option ℚ := none
  avg_chunk_delay : Option ℚ := none
  character_count : ℕ := 0
  word_count : ℕ := 0
  chars_per_second : Option ℚ := none
  realtime_factor : Option ℚ := none
  deriving Repr, DecidableEq

/-- The throughput half of `calculate_derived_metrics` (lines 88–92), as the
pair (chars_per_second, realtime_factor) it leaves in the record.
`if self.total_synthesis_time and self.total_synthesis_time > 0:` is Python
truthiness followed by a sign test, i.e. present-and-positive;
`if self.character_count:` is nonzero; `if self.audio_duration:` is
present-and-nonzero.  A field whose guard fails keeps its previous value. -/
def derivedThroughputFields (m : TTSMetrics) : Option ℚ × Option ℚ :=
  match m.total_synthesis_time with
  | some t =>
    if 0 < t then
      ((if m.character_count ≠ 0
          then some (((m.character_count : ℚ) / t) * 1000)
          else m.chars_per_second),
       (match m.audio_duration with
        | some d =>
          if d ≠ 0 then some (d / (t / 1000)) else m.realtime_factor
        | none => m.realtime_factor))
    else (m.chars_per_second, m.realtime_factor)
  | none => (m.chars_per_second, m.realtime_factor)

/-- Applies the throughput derivation to the record. -/
def deriveThroughput (m : TTSMetrics) : TTSMetrics :=
  { m with
    chars_per_second := (derivedThroughputFields m).1
    realtime_factor := (derivedThroughputFields m).2 }

/-- The jitter half of `calculate_derived_metrics` (lines 94–105):
`if self.chunk_timings and len(self.chunk_timings) > 1:` then build the
consecutive deltas; `if delays:` then set min/max/avg and the jitter, which
is `statistics.stdev(delays) if len(delays) > 1 else 0.0` (stored squared
here, so the stdev becomes the sample variance). -/
def deriveJitter (m : TTSMetrics) : TTSMetrics :=
  if m.chunk_timings ≠ [] ∧ 1 < m.chunk_timings.length then
    if consecutiveDeltas m.chunk_timings ≠ [] then
      { m with
        min_chunk_delay := some (listMin (consecutiveDeltas m.chunk_timings))
        max_chunk_delay := some (listMax (consecutiveDeltas m.chunk_timings))
        avg_chunk_delay := some (meanQ (consecutiveDeltas m.chunk_timings))
        playback_jitter_sq := some
          (if 1 < (consecutiveDeltas m.chunk_timings).length
            then sampleVarianceQ (consecutiveDeltas m.chunk_timings) else 0) }
    else m
  else m

/-- Embeds `TTSMetrics.calculate_derived_metrics` (lines 86–105): the throughput
block followed by the jitter block. -/
def calculate_derived_metrics (m : TTSMetrics) : TTSMetrics :=
  deriveJitter (deriveThroughput m)

/-! ## `TTSResult` (services.py lines 108–119) -/

/-- The `TTSResult` dataclass.  `audio_base64` (a base64 text mirror of
`audio_data`, always set together with it) is not modelled: no verified
property concerns the encoding. -/
structure TTSResult where
  success : Bool
  audio_data : Option (List ℕ) := none
  metrics : TTSMetrics := {}
  error_message : String := ""
  provider_id : String := ""
  voice_id : String := ""
  model_id : String := ""
  response_headers : List (String × String) := []
  deriving Repr, DecidableEq

/-! ## Text metrics (services.py lines 147–151) -/

/-- Python `len(text.split())`: whitespace-delimited non-empty tokens. -/
def wordCount (text : String) : ℕ :=
  ((text.split Char.isWhitespace).filter (· ≠ "")).length

/-! ## Demo-mode simulation (services.py lines 153–181, 410–438) -/

/-- The 44-byte WAV header literal from `_generate_demo_audio`. -/
def wavHeader : List ℕ :=
  [0x52, 0x49, 0x46, 0x46, 0x24, 0x00, 0x00, 0x00,
   0x57, 0x41, 0x56, 0x45, 0x66, 0x6d, 0x74, 0x20,
   0x10, 0x00, 0x00, 0x00, 0x01, 0x00, 0x01, 0x00,
   0x22, 0x56, 0x00, 0x00, 0x44, 0xac, 0x00, 0x00,
   0x02, 0x00, 0x10, 0x00, 0x64, 0x61, 0x74, 0x61,
   0x00, 0x00, 0x00, 0x00]

/-- Embeds `_generate_demo_audio`: header plus `int(22050 * len(text) * 0.05) * 2`
zero bytes of 16-bit silence (the float product idealized in exact
arithmetic; nothing verified depends on the byte count). -/
def generate_demo_audio (text : String) : List ℕ :=
  wavHeader ++
    List.replicate (((22050 : ℚ) * ((text.length : ℚ) * (5 / 100))).floor.toNat * 2) 0

/-- One `random.random()` draw per use site of `_demo_synthesis`
(`r0` feeds the `time.sleep`, which has no modelled effect). -/
structure DemoRand where
  r0 : ℚ := 0
  r1 : ℚ := 0
  r2 : ℚ := 0
  r3 : ℚ := 0
  deriving Repr, DecidableEq

/-- Embeds `ElevenLabsProvider._demo_synthesis` (lines 410–438): simulated metrics
from the ElevenLabs-specific random ranges, derived metrics, placeholder
audio, success with the informational demo message. -/
def elevenLabs_demo_synthesis (text voice_id : String) (metrics : TTSMetrics)
    (model_id : String) (r : DemoRand) : TTSResult :=
  let ttfb : ℚ := 50 + r.r1 * 100
  let ttfa : ℚ := ttfb + 20 + r.r2 * 50
  let total : ℚ := ttfa + (text.length : ℚ) * (2 + r.r3)
  let m := { metrics with
    time_to_first_byte := some ttfb
    time_to_first_audio := some ttfa
    total_synthesis_time := some total
    audio_duration := some ((text.length : ℚ) * (6 / 100))
    audio_size := some (text.length * 150)
    audio_format := "mp3"
    sample_rate := some 44100 }
  let m := calculate_derived_metrics m
  { success := true
    audio_data := some (generate_demo_audio text)
    metrics := m
    provider_id := "elevenlabs"
    voice_id := voice_id
    model_id := model_id
    error_message := "DEMO MODE: Using simulated metrics" }

/-! ## Non-streaming synthesis (services.py lines 230–308) -/

/-- What the transport layer did for one blocking `requests.post`: either it
raised (any transport exception, carrying `str(e)`), or it returned a
response with a status code, error-body text, content bytes and headers. -/
inductive HttpOutcome where
  | exception (msg : String)
  | response (status : ℕ) (bodyText : String) (content : List ℕ)
      (headers : List (String × String))
  deriving Repr, DecidableEq

/-- The wall-clock values the non-streaming path samples: `t0` at request
start, `t1` when the response returns (TTFB capture), `t2` after the body
is read, plus the transport outcome. -/
structure SynthEnv where
  t0 : ℚ := 0
  t1 : ℚ := 0
  t2 : ℚ := 0
  outcome : HttpOutcome
  deriving Repr, DecidableEq

/-- Embeds `ElevenLabsProvider.synthesize` (lines 230–308).  The audio-duration
estimator (`get_audio_duration`, whose exact value depends on the external
pydub decoder) is passed in as `est`.  Control flow: text metrics; demo
mode short-circuit; otherwise TTFB from `t1`, then on status 200 a success
result with derived metrics, on other statuses an API-error failure, and on
a transport exception a failure carrying the exception text (the `except`
clause returns the metrics accumulated so far; the exception point is
modelled at the request itself). -/
def elevenLabs_synthesize (demo_mode : Bool) (r : DemoRand)
    (est : List ℕ → Option ℚ) (text voice_id model_id : String)
    (env : SynthEnv) : TTSResult :=
  let metrics : TTSMetrics :=
    { character_count := text.length, word_count := wordCount text }
  if demo_mode then
    elevenLabs_demo_synthesis text voice_id metrics model_id r
  else
    match env.outcome with
    | .exception msg =>
      { success := false
        metrics := metrics
        error_message := msg
        provider_id := "elevenlabs"
        voice_id := voice_id
        model_id := model_id }
    | .response status bodyText content headers =>
      let m1 := { metrics with time_to_first_byte := some (env.t1 - env.t0) }
      if status = 200 then
        let m2 := { m1 with
          total_synthesis_time := some (env.t2 - env.t0)
          time_to_first_audio := m1.time_to_first_byte
          audio_size := some content.length
          audio_format := "mp3"
          audio_duration := est content }
        { success := true
          audio_data := some content
          metrics := calculate_derived_metrics m2
          provider_id := "elevenlabs"
          voice_id := voice_id
          model_id := model_id
          response_headers := headers }
      else
        { success := false
          metrics := m1
          error_message := "API Error " ++ toString status ++ ": " ++ bodyText
          provider_id := "elevenlabs"
          voice_id := voice_id
          model_id := model_id }

/-! ## Streaming synthesis (services.py lines 310–408, 907–997) -/

/-- One increment delivered by the body iterator: the clock value
(`time.perf_counter() * 1000`) observed when it arrived and its bytes. -/
structure StreamChunk where
  time : ℚ
  data : List ℕ
  deriving Repr, DecidableEq

/-- The state the streaming read loop accumulates: `chunk_timings` entries,
the collected chunk byte lists (`chunks`), their sizes (`chunk_sizes`), and
the time-to-first-audio captured at the first non-empty chunk. -/
structure ChunkAccum where
  timings : List ℚ
  datas : List (List ℕ)
  sizes : List ℕ
  ttfa : Option ℚ
  deriving Repr, DecidableEq

/-- The `for chunk in response.iter_content(chunk_size=1024): if chunk:`
loop (lines 353–364): empty increments are skipped; each non-empty one
appends its relative arrival time and bytes, and the first one fixes the
time-to-first-audio. -/
def iterContentLoop (t0 : ℚ) : List StreamChunk → ChunkAccum
  | [] => ⟨[], [], [], none⟩
  | c :: rest =>
    if c.data = [] then iterContentLoop t0 rest
    else
      let acc := iterContentLoop t0 rest
      ⟨(c.time - t0) :: acc.timings, c.data :: acc.datas,
        c.data.length :: acc.sizes, some (c.time - t0)⟩

/-- The transport outcome of the streaming `requests.post`: an exception,
or a response whose body is the given sequence of increments, with `tEnd`
the clock value after the iterator is exhausted. -/
inductive StreamOutcome where
  | exception (msg : String)
  | response (status : ℕ) (bodyText : String)
      (headers : List (String × String)) (chunks : List StreamChunk) (tEnd : ℚ)
  deriving Repr, DecidableEq

/-- Clock and transport environment of one streaming call: `t0` at start,
`t1` at header receipt (TTFB capture). -/
structure StreamEnv where
  t0 : ℚ := 0
  t1 : ℚ := 0
  outcome : StreamOutcome
  deriving Repr, DecidableEq

/-- Builds the post-loop streaming metrics shared by the streaming
adapters (lines 366–378 and 959–971): totals, chunk count, average chunk
size (`statistics.mean(chunk_sizes) if chunk_sizes else 0`), estimated
duration of the joined audio, then the derivation step. -/
def streamingMetrics (m1 : TTSMetrics) (est : List ℕ → Option ℚ)
    (t0 tEnd : ℚ) (acc : ChunkAccum) : TTSMetrics :=
  let audio := acc.datas.flatten
  calculate_derived_metrics
    { m1 with
      time_to_first_audio := acc.ttfa
      chunk_timings := acc.timings
      total_synthesis_time := some (tEnd - t0)
      audio_size := some audio.length
      audio_format := "mp3"
      chunk_count := some acc.datas.length
      avg_chunk_size := some
        (if acc.sizes ≠ [] then meanQ (acc.sizes.map (· : ℕ → ℚ)) else 0)
      audio_duration := est audio }

/-- Embeds `ElevenLabsProvider.synthesize_streaming` (lines 310–408). -/
def elevenLabs_synthesize_streaming (demo_mode : Bool) (r : DemoRand)
    (est : List ℕ → Option ℚ) (text voice_id model_id : String)
    (env : StreamEnv) : TTSResult :=
  let metrics : TTSMetrics :=
    { is_streaming := true
      character_count := text.length
      word_count := wordCount text }
  if demo_mode then
    elevenLabs_demo_synthesis text voice_id metrics model_id r
  else
    match env.outcome with
    | .exception msg =>
      { success := false
        metrics := metrics
        error_message := msg
        provider_id := "elevenlabs"
        voice_id := voice_id
        model_id := model_id }
    | .response status bodyText headers chunks tEnd =>
      let m1 := { metrics with time_to_first_byte := some (env.t1 - env.t0) }
      if status = 200 then
        let acc := iterContentLoop env.t0 chunks
        { success := true
          audio_data := some acc.datas.flatten
          metrics := streamingMetrics m1 est env.t0 tEnd acc
          provider_id := "elevenlabs"
          voice_id := voice_id
          model_id := model_id
          response_headers := headers }
      else
        { success := false
          metrics := m1
          error_message :=
            "Streaming API Error " ++ toString status ++ ": " ++ bodyText
          provider_id := "elevenlabs"
          voice_id := voice_id
          model_id := model_id }

/-- Embeds `AmazonPollyProvider._demo_synthesis` (lines 999–1024): same shape as
the ElevenLabs simulation but with Polly's own constant ranges. -/
def amazonPolly_demo_synthesis (text voice_id : String) (metrics : TTSMetrics)
    (r : DemoRand) : TTSResult :=
  let ttfb : ℚ := 55 + r.r1 * 75
  let ttfa : ℚ := ttfb + 20 + r.r2 * 35
  let total : ℚ := ttfa + (text.length : ℚ) * (12 / 10 + r.r3)
  let m := { metrics with
    time_to_first_byte := some ttfb
    time_to_first_audio := some ttfa
    total_synthesis_time := some total
    audio_duration := some ((text.length : ℚ) * (52 / 1000))
    audio_size := some (text.length * 130)
    audio_format := "mp3"
    sample_rate := some 22050 }
  let m := calculate_derived_metrics m
  { success := true
    audio_data := some (generate_demo_audio text)
    metrics := m
    provider_id := "amazon"
    voice_id := voice_id
    error_message := "DEMO MODE: Using simulated metrics" }

/-- Outcome of the boto3 `synthesize_speech` call in Polly's streaming path:
an exception, a response without an `AudioStream` key, or a response whose
stream yields the given reads (`stream.read(1024)` results; the loop breaks
at the first empty read, so only the prefix of non-empty reads counts). -/
inductive PollyOutcome where
  | exception (msg : String)
  | noAudioStream
  | audioStream (chunks : List StreamChunk) (tEnd : ℚ)
  deriving Repr, DecidableEq

/-- Clock and transport environment of one Polly streaming call. -/
structure PollyEnv where
  t0 : ℚ := 0
  t1 : ℚ := 0
  outcome : PollyOutcome
  deriving Repr, DecidableEq

/-- The `while True: chunk = audio_stream.read(chunk_size); if not chunk:
break` loop (lines 942–957): identical accumulation to the iterator loop
except that the first empty read terminates the whole loop. -/
def pollyReadLoop (t0 : ℚ) : List StreamChunk → ChunkAccum
  | [] => ⟨[], [], [], none⟩
  | c :: rest =>
    if c.data = [] then ⟨[], [], [], none⟩
    else
      let acc := pollyReadLoop t0 rest
      ⟨(c.time - t0) :: acc.timings, c.data :: acc.datas,
        c.data.length :: acc.sizes, some (c.time - t0)⟩

/-- Embeds `AmazonPollyProvider.synthesize_streaming` (lines 907–997). -/
def amazonPolly_synthesize_streaming (demo_mode : Bool) (r : DemoRand)
    (est : List ℕ → Option ℚ) (text voice_id : String)
    (env : PollyEnv) : TTSResult :=
  let metrics : TTSMetrics :=
    { is_streaming := true
      character_count := text.length
      word_count := wordCount text }
  if demo_mode then
    amazonPolly_demo_synthesis text voice_id metrics r
  else
    match env.outcome with
    | .exception msg =>
      { success := false
        metrics := metrics
        error_message := msg
        provider_id := "amazon"
        voice_id := voice_id }
    | .noAudioStream =>
      { success := false
        metrics := { metrics with time_to_first_byte := some (env.t1 - env.t0) }
        error_message := "No audio stream in response"
        provider_id := "amazon"
        voice_id := voice_id }
    | .audioStream chunks tEnd =>
      let m1 := { metrics with time_to_first_byte := some (env.t1 - env.t0) }
      let acc := pollyReadLoop env.t0 chunks
      { success := true
        audio_data := some acc.datas.flatten
        metrics := streamingMetrics m1 est env.t0 tEnd acc
        provider_id := "amazon"
        voice_id := voice_id }

/-! ## Dispatch manager (services.py lines 1251–1308) -/

/-- The fixed registry keys of `TTSServiceManager.get_provider`. -/
def knownProviders : List String :=
  ["elevenlabs", "google", "azure", "amazon", "openai"]

/-- What one resolved adapter does with a request — the manager delegates
to `provider.synthesize` / `provider.synthesize_streaming` and its own
behavior is independent of what those return, so they are parameters. -/
structure AdapterBehavior where
  run : String → String → TTSResult
  runStreaming : String → String → TTSResult

/-- Embeds `TTSServiceManager.synthesize` (lines 1279–1293): resolve the provider
from the fixed registry (the instance cache only affects object identity,
not behavior); if the identifier is unknown, manufacture the failure result
without touching any adapter; otherwise delegate to the streaming or
non-streaming entry point. -/
def manager_synthesize (adapters : String → AdapterBehavior)
    (provider_id text voice_id : String) (streaming : Bool) : TTSResult :=
  if provider_id ∈ knownProviders then
    if streaming then (adapters provider_id).runStreaming text voice_id
    else (adapters provider_id).run text voice_id
  else
    { success := false
      error_message := "Unknown provider: " ++ provider_id
      provider_id := provider_id }

/-- One entry of the `provider_configs` list passed to
`synthesize_multiple` (the `options` map is forwarded verbatim to the
adapter and is absorbed into `AdapterBehavior` here). -/
structure ProviderConfig where
  provider_id : String
  voice_id : String
  deriving Repr, DecidableEq

/-- Embeds `TTSServiceManager.synthesize_multiple` (lines 1295–1308): the
`results = []; for config in provider_configs: ... results.append(...)`
loop, transcribed as a left fold appending one dispatch result per entry. -/
def synthesize_multiple (adapters : String → AdapterBehavior) (text : String)
    (provider_configs : List ProviderConfig) (streaming : Bool) :
    List TTSResult :=
  provider_configs.foldl
    (fun results config =>
      results ++
        [manager_synthesize adapters config.provider_id text config.voice_id
          streaming])
    []

/-! ## Percentile aggregation (views.py lines 402–412 and 470–479) -/

/-- The percentile block shared by `get_provider_metrics` and
`get_comparison_metrics`: drop nulls, sort ascending, then
`p50 = times[int(n*0.5)]`, `p95 = times[int(n*0.95)] if n >= 20 else None`,
`p99 = times[int(n*0.99)] if n >= 100 else None` (all `None` when the
sample is empty).  `int(n * p)` truncates the non-negative float product,
i.e. takes the floor, rendered here as natural-number division. -/
def computePercentiles (times : List (Option ℚ)) :
    Option ℚ × Option ℚ × Option ℚ :=
  let ts := times.filterMap id
  let sorted := List.insertionSort (· ≤ ·) ts
  if sorted ≠ [] then
    let n := sorted.length
    (some (sorted.getD (n * 50 / 100) 0),
     if 20 ≤ n then some (sorted.getD (n * 95 / 100) 0) else none,
     if 100 ≤ n then some (sorted.getD (n * 99 / 100) 0) else none)
  else (none, none, none)

/-! ## Helper lemmas -/

/-- The delta list has one entry fewer than its input. -/
theorem consecutiveDeltas_length :
    ∀ l : List ℚ, (consecutiveDeltas l).length = l.length - 1
  | [] => rfl
  | [_] => rfl
  | a :: b :: rest => by
    simp [consecutiveDeltas, consecutiveDeltas_length (b :: rest)]

/-- The jitter block touches only the four jitter fields. -/
theorem deriveJitter_preserves (m : TTSMetrics) :
    (deriveJitter m).time_to_first_byte = m.time_to_first_byte ∧
    (deriveJitter m).time_to_first_audio = m.time_to_first_audio ∧
    (deriveJitter m).total_synthesis_time = m.total_synthesis_time ∧
    (deriveJitter m).is_streaming = m.is_streaming ∧
    (deriveJitter m).chunk_timings = m.chunk_timings ∧
    (deriveJitter m).chunk_count = m.chunk_count ∧
    (deriveJitter m).avg_chunk_size = m.avg_chunk_size ∧
    (deriveJitter m).chars_per_second = m.chars_per_second ∧
    (deriveJitter m).realtime_factor = m.realtime_factor := by
  unfold deriveJitter
  split
  · split <;> simp
  · simp

/-- Raw fields survive the full derivation step unchanged. -/
theorem calc_preserves (m : TTSMetrics) :
    (calculate_derived_metrics m).time_to_first_byte = m.time_to_first_byte ∧
    (calculate_derived_metrics m).time_to_first_audio = m.time_to_first_audio ∧
    (calculate_derived_metrics m).total_synthesis_time = m.total_synthesis_time ∧
    (calculate_derived_metrics m).is_streaming = m.is_streaming ∧
    (calculate_derived_metrics m).chunk_timings = m.chunk_timings ∧
    (calculate_derived_metrics m).chunk_count = m.chunk_count ∧
    (calculate_derived_metrics m).avg_chunk_size = m.avg_chunk_size := by
  have h := deriveJitter_preserves (deriveThroughput m)
  unfold calculate_derived_metrics
  exact ⟨h.1, h.2.1, h.2.2.1, h.2.2.2.1, h.2.2.2.2.1, h.2.2.2.2.2.1,
    h.2.2.2.2.2.2.1⟩

/-- The derived throughput fields of the full derivation step. -/
theorem calc_throughput (m : TTSMetrics) :
    (calculate_derived_metrics m).chars_per_second =
      (derivedThroughputFields m).1 ∧
    (calculate_derived_metrics m).realtime_factor =
      (derivedThroughputFields m).2 := by
  have h := deriveJitter_preserves (deriveThroughput m)
  unfold calculate_derived_metrics
  exact ⟨h.2.2.2.2.2.2.2.1.trans rfl, h.2.2.2.2.2.2.2.2.trans rfl⟩

/-- The jitter block when the chunk-timing sequence has at least two
entries: all four jitter fields are set from the consecutive deltas. -/
theorem deriveJitter_of_two_or_more (m : TTSMetrics)
    (h : 1 < m.chunk_timings.length) :
    (deriveJitter m).min_chunk_delay =
      some (listMin (consecutiveDeltas m.chunk_timings)) ∧
    (deriveJitter m).max_chunk_delay =
      some (listMax (consecutiveDeltas m.chunk_timings)) ∧
    (deriveJitter m).avg_chunk_delay =
      some (meanQ (consecutiveDeltas m.chunk_timings)) ∧
    (deriveJitter m).playback_jitter_sq =
      some (if 1 < (consecutiveDeltas m.chunk_timings).length
        then sampleVarianceQ (consecutiveDeltas m.chunk_timings) else 0) := by
  have hne : m.chunk_timings ≠ [] := by
    intro hnil
    rw [hnil] at h
    simp at h
  have hd : consecutiveDeltas m.chunk_timings ≠ [] := by
    intro hnil
    have hlen := consecutiveDeltas_length m.chunk_timings
    rw [hnil] at hlen
    simp at hlen
    omega
  unfold deriveJitter
  simp [hne, h, hd]

/-- The jitter fields of the full derivation step, in terms of the input's
chunk-timing sequence (untouched by the throughput block). -/
theorem calc_jitter_of_two_or_more (m : TTSMetrics)
    (h : 1 < m.chunk_timings.length) :
    (calculate_derived_metrics m).min_chunk_delay =
      some (listMin (consecutiveDeltas m.chunk_timings)) ∧
    (calculate_derived_metrics m).max_chunk_delay =
      some (listMax (consecutiveDeltas m.chunk_timings)) ∧
    (calculate_derived_metrics m).avg_chunk_delay =
      some (meanQ (consecutiveDeltas m.chunk_timings)) ∧
    (calculate_derived_metrics m).playback_jitter_sq =
      some (if 1 < (consecutiveDeltas m.chunk_timings).length
        then sampleVarianceQ (consecutiveDeltas m.chunk_timings) else 0) := by
  have hct : (deriveThroughput m).chunk_timings = m.chunk_timings := rfl
  have hres := deriveJitter_of_two_or_more (deriveThroughput m)
    (by rw [hct]; exact h)
  rw [hct] at hres
  exact hres

/-- Characterization of the streaming body-iterator loop: each accumulator
component is the corresponding map over the non-empty increments, and the
recorded time-to-first-audio is the first timing entry. -/
theorem iterContentLoop_spec (t0 : ℚ) (cs : List StreamChunk) :
    (iterContentLoop t0 cs).timings
        = (cs.filter fun c => c.data ≠ []).map (fun c => c.time - t0) ∧
    (iterContentLoop t0 cs).datas
        = (cs.filter fun c => c.data ≠ []).map (fun c => c.data) ∧
    (iterContentLoop t0 cs).sizes
        = (cs.filter fun c => c.data ≠ []).map (fun c => c.data.length) ∧
    (iterContentLoop t0 cs).ttfa
        = ((cs.filter fun c => c.data ≠ []).map (fun c => c.time - t0)).head? := by
  induction cs with
  | nil => exact ⟨rfl, rfl, rfl, rfl⟩
  | cons c rest ih =>
    by_cases h : c.data = []
    · simpa [iterContentLoop, h] using ih
    · simp [iterContentLoop, h, ih.1, ih.2.1, ih.2.2.1]

/-! ## Claim C1 -/

/-- C1 counterexample: the claim extends TTFA = TTFB to the demo-mode
simulation path, but a demo-mode non-streaming synthesis (here with all
random draws at 0) is successful, non-streaming, and has
time-to-first-audio 70 ms ≠ time-to-first-byte 50 ms: the simulation adds
a separate 20–70 ms offset to TTFA. -/
theorem claim1_counterexample :
    (elevenLabs_synthesize true {} (fun _ => none) "hi" "v1"
        "eleven_multilingual_v2" { outcome := .exception "" }).success = true ∧
    (elevenLabs_synthesize true {} (fun _ => none) "hi" "v1"
        "eleven_multilingual_v2"
        { outcome := .exception "" }).metrics.is_streaming = false ∧
    (elevenLabs_synthesize true {} (fun _ => none) "hi" "v1"
        "eleven_multilingual_v2"
        { outcome := .exception "" }).metrics.time_to_first_byte = some 50 ∧
    (elevenLabs_synthesize true {} (fun _ => none) "hi" "v1"
        "eleven_multilingual_v2"
        { outcome := .exception "" }).metrics.time_to_first_audio = some 70 ∧
    (elevenLabs_synthesize true {} (fun _ => none) "hi" "v1"
        "eleven_multilingual_v2"
        { outcome := .exception "" }).metrics.time_to_first_audio ≠
      (elevenLabs_synthesize true {} (fun _ => none) "hi" "v1"
        "eleven_multilingual_v2"
        { outcome := .exception "" }).metrics.time_to_first_byte := by
  unfold elevenLabs_synthesize elevenLabs_demo_synthesis
  simp only [if_true]
  refine ⟨trivial, ?_, ?_, ?_, ?_⟩
  · rw [(calc_preserves _).2.2.2.1]
  · rw [(calc_preserves _).1]
    norm_num
  · rw [(calc_preserves _).2.1]
    norm_num
  · rw [(calc_preserves _).2.1, (calc_preserves _).1]
    norm_num

/-- C1 (amended): every successful non-streaming result produced by the
live API path has time-to-first-audio equal to time-to-first-byte; a
demo-mode simulated result instead has TTFA = TTFB + 20 + 50·r for the
random draw r ∈ [0, 1), strictly greater than TTFB. -/
theorem claim1_amended (r : DemoRand) (est : List ℕ → Option ℚ)
    (text voice_id model_id : String) (env : SynthEnv) :
    ((elevenLabs_synthesize false r est text voice_id model_id env).success
        = true →
      (elevenLabs_synthesize false r est text voice_id model_id
          env).metrics.time_to_first_audio =
        (elevenLabs_synthesize false r est text voice_id model_id
          env).metrics.time_to_first_byte) ∧
    ((elevenLabs_synthesize true r est text voice_id model_id
        env).metrics.time_to_first_byte = some (50 + r.r1 * 100)) ∧
    ((elevenLabs_synthesize true r est text voice_id model_id
        env).metrics.time_to_first_audio =
      some (50 + r.r1 * 100 + 20 + r.r2 * 50)) ∧
    (0 ≤ r.r2 →
      (elevenLabs_synthesize true r est text voice_id model_id
          env).metrics.time_to_first_audio ≠
        (elevenLabs_synthesize true r est text voice_id model_id
          env).metrics.time_to_first_byte) := by
  have hdemo :
      (elevenLabs_synthesize true r est text voice_id model_id
          env).metrics.time_to_first_byte = some (50 + r.r1 * 100) ∧
      (elevenLabs_synthesize true r est text voice_id model_id
          env).metrics.time_to_first_audio =
        some (50 + r.r1 * 100 + 20 + r.r2 * 50) := by
    unfold elevenLabs_synthesize elevenLabs_demo_synthesis
    simp only [if_true]
    exact ⟨(calc_preserves _).1, (calc_preserves _).2.1⟩
  refine ⟨?_, hdemo.1, hdemo.2, ?_⟩
  · intro hsucc
    rcases hout : env.outcome with msg | ⟨status, bodyText, content, headers⟩
    · simp [elevenLabs_synthesize, hout] at hsucc
    · by_cases hs : status = 200
      · simp only [elevenLabs_synthesize, hout, hs, if_true, if_pos rfl]
        simp only [Bool.false_eq_true, if_false]
        rw [(calc_preserves _).2.1, (calc_preserves _).1]
      · simp [elevenLabs_synthesize, hout, hs] at hsucc
  · intro hr
    rw [hdemo.1, hdemo.2]
    simp only [ne_eq, Option.some.injEq]
    intro heq
    have h50 : 0 ≤ r.r2 * 50 := mul_nonneg hr (by norm_num)
    linarith

/-- C1 witness: the amended theorem at a concrete live-path success and a
concrete demo draw. -/
theorem claim1_witness :
    (elevenLabs_synthesize false {} (fun _ => none) "hi" "v1" "m"
        { t0 := 0, t1 := 40, t2 := 90,
          outcome := .response 200 "" [7] [] }).metrics.time_to_first_audio =
      (elevenLabs_synthesize false {} (fun _ => none) "hi" "v1" "m"
        { t0 := 0, t1 := 40, t2 := 90,
          outcome := .response 200 "" [7] [] }).metrics.time_to_first_byte ∧
    (elevenLabs_synthesize true { r2 := 1/2 } (fun _ => none) "hi" "v1" "m"
        { outcome := .exception "" }).metrics.time_to_first_audio ≠
      (elevenLabs_synthesize true { r2 := 1/2 } (fun _ => none) "hi" "v1" "m"
        { outcome := .exception "" }).metrics.time_to_first_byte := by
  constructor
  · exact (claim1_amended {} (fun _ => none) "hi" "v1" "m"
      { t0 := 0, t1 := 40, t2 := 90, outcome := .response 200 "" [7] [] }).1
      rfl
  · exact (claim1_amended { r2 := 1/2 } (fun _ => none) "hi" "v1" "m"
      { outcome := .exception "" }).2.2.2 (by norm_num)

/-! ## Claim C2 -/

/-- C2 counterexample: for the chunk-timing sequence [0, 1, 3] the deltas
are [1, 2]; the code computes `statistics.stdev`, the *sample* standard
deviation (squared: 1/2), while the claim's population standard deviation
has square 1/4.  Since both standard deviations are non-negative square
roots, the differing squares give differing standard deviations
(√(1/2) ≠ √(1/4)). -/
theorem claim2_counterexample :
    consecutiveDeltas [0, 1, 3] = [1, 2] ∧
    (calculate_derived_metrics
        { chunk_timings := [0, 1, 3] }).playback_jitter_sq = some (1 / 2) ∧
    populationVarianceQ [1, 2] = 1 / 4 ∧
    ((1 : ℚ) / 2 ≠ 1 / 4) ∧
    Real.sqrt (1 / 2) ≠ Real.sqrt (1 / 4) := by
  have hdeltas : consecutiveDeltas [0, 1, 3] = [1, 2] := by
    norm_num [consecutiveDeltas]
  refine ⟨hdeltas, ?_, ?_, by norm_num, ?_⟩
  · have h := calc_jitter_of_two_or_more { chunk_timings := [0, 1, 3] }
      (by norm_num)
    rw [h.2.2.2]
    rw [show ({ chunk_timings := [0, 1, 3] } :
        TTSMetrics).chunk_timings = [0, 1, 3] from rfl, hdeltas]
    norm_num [sampleVarianceQ, meanQ, sumQ]
  · norm_num [populationVarianceQ, meanQ, sumQ]
  · have hlt : Real.sqrt (1 / 4) < Real.sqrt (1 / 2) :=
      Real.sqrt_lt_sqrt (by norm_num) (by norm_num)
    exact fun h => absurd h.symm (ne_of_lt hlt)

/-- C2 (amended): for a record with at least two chunk timings, the
derivation sets min/max/avg-chunk-delay to the min/max/mean of the
consecutive deltas and the playback jitter to the *sample* standard
deviation of the deltas (Bessel-corrected, divisor n−1; squared here), not
the population standard deviation; with exactly one delta (a 2-entry
sequence) the jitter is 0, not null. -/
theorem claim2_amended (m : TTSMetrics) (h : 1 < m.chunk_timings.length) :
    (calculate_derived_metrics m).min_chunk_delay =
      some (listMin (consecutiveDeltas m.chunk_timings)) ∧
    (calculate_derived_metrics m).max_chunk_delay =
      some (listMax (consecutiveDeltas m.chunk_timings)) ∧
    (calculate_derived_metrics m).avg_chunk_delay =
      some (meanQ (consecutiveDeltas m.chunk_timings)) ∧
    (calculate_derived_metrics m).playback_jitter_sq =
      some (if 1 < (consecutiveDeltas m.chunk_timings).length
        then sampleVarianceQ (consecutiveDeltas m.chunk_timings) else 0) ∧
    (m.chunk_timings.length = 2 →
      (calculate_derived_metrics m).playback_jitter_sq = some 0) := by
  have hmain := calc_jitter_of_two_or_more m h
  refine ⟨hmain.1, hmain.2.1, hmain.2.2.1, hmain.2.2.2, ?_⟩
  intro h2
  rw [hmain.2.2.2]
  have hlen : (consecutiveDeltas m.chunk_timings).length = 1 := by
    rw [consecutiveDeltas_length, h2]
  rw [hlen]
  norm_num

/-- C2 witness: the amended theorem at the 2-entry sequence [0, 5] (one
delta, jitter 0) with all hypotheses discharged. -/
theorem claim2_witness :
    (calculate_derived_metrics
        { chunk_timings := [0, 5] }).playback_jitter_sq = some 0 ∧
    (calculate_derived_metrics
        { chunk_timings := [0, 5] }).avg_chunk_delay =
      some (meanQ (consecutiveDeltas [0, 5])) := by
  have h := claim2_amended { chunk_timings := [0, 5] } (by norm_num)
  exact ⟨h.2.2.2.2 (by norm_num), h.2.2.1⟩

/-! ## Claim C3 -/

/-- C3 (confirmed): the embedded entry points are total functions — every
transport outcome, the exception case included, maps to a returned
`TTSResult` — and whenever the transport raised, the result has
success = false and carries the exception's description verbatim, for the
non-streaming ElevenLabs path and for both streaming paths cited. -/
theorem claim3_exception_to_failure (r : DemoRand)
    (est : List ℕ → Option ℚ) (text voice_id model_id msg : String)
    (env : SynthEnv) (senv : StreamEnv) (penv : PollyEnv)
    (h1 : env.outcome = .exception msg)
    (h2 : senv.outcome = .exception msg)
    (h3 : penv.outcome = .exception msg) :
    (elevenLabs_synthesize false r est text voice_id model_id env).success
        = false ∧
    (elevenLabs_synthesize false r est text voice_id model_id
        env).error_message = msg ∧
    (elevenLabs_synthesize_streaming false r est text voice_id model_id
        senv).success = false ∧
    (elevenLabs_synthesize_streaming false r est text voice_id model_id
        senv).error_message = msg ∧
    (amazonPolly_synthesize_streaming false r est text voice_id
        penv).success = false ∧
    (amazonPolly_synthesize_streaming false r est text voice_id
        penv).error_message = msg := by
  refine ⟨?_, ?_, ?_, ?_, ?_, ?_⟩ <;>
    simp [elevenLabs_synthesize, elevenLabs_synthesize_streaming,
      amazonPolly_synthesize_streaming, h1, h2, h3]

/-- C3 witness: the theorem at a concrete timeout exception. -/
theorem claim3_witness :
    (elevenLabs_synthesize false {} (fun _ => none) "hi" "v1" "m"
        { outcome := .exception "Connection timed out" }).success = false ∧
    (elevenLabs_synthesize false {} (fun _ => none) "hi" "v1" "m"
        { outcome := .exception "Connection timed out" }).error_message =
      "Connection timed out" := by
  have h := claim3_exception_to_failure {} (fun _ => none) "hi" "v1" "m"
    "Connection timed out"
    { outcome := .exception "Connection timed out" }
    { outcome := .exception "Connection timed out" }
    { outcome := .exception "Connection timed out" } rfl rfl rfl
  exact ⟨h.1, h.2.1⟩

/-! ## Claims C4 and C5 -/

/-- Appending one image per element onto a growing accumulator is the same
as appending the map of the list. -/
theorem foldl_append_singleton {α β : Type} (f : α → β) :
    ∀ (l : List α) (init : List β),
      l.foldl (fun acc x => acc ++ [f x]) init = init ++ l.map f
  | [], init => by simp
  | x :: l, init => by
    simp [List.foldl_cons, foldl_append_singleton f l]

/-- The dispatch loop of `synthesize_multiple` is the element-wise map of
`manager_synthesize` over the configuration list. -/
theorem synthesize_multiple_eq_map (adapters : String → AdapterBehavior)
    (text : String) (configs : List ProviderConfig) (streaming : Bool) :
    synthesize_multiple adapters text configs streaming =
      configs.map (fun c =>
        manager_synthesize adapters c.provider_id text c.voice_id streaming) := by
  unfold synthesize_multiple
  rw [foldl_append_singleton]
  simp

/-- C4 (confirmed): `synthesize_multiple` returns exactly one result per
configuration, index-for-index in configuration order; the i-th result is
the dispatch of the i-th configuration alone, so no entry's failure (an
unknown backend included) can affect any other entry's result. -/
theorem claim4_results_match_configs (adapters : String → AdapterBehavior)
    (text : String) (configs : List ProviderConfig) (streaming : Bool) :
    (synthesize_multiple adapters text configs streaming).length =
      configs.length ∧
    ∀ (i : ℕ) (c : ProviderConfig), configs[i]? = some c →
      (synthesize_multiple adapters text configs streaming)[i]? =
        some (manager_synthesize adapters c.provider_id text c.voice_id
          streaming) := by
  rw [synthesize_multiple_eq_map]
  refine ⟨List.length_map _ _, ?_⟩
  intro i c hc
  rw [List.getElem?_map, hc]
  rfl

/-- C5 (confirmed): for any identifier outside the fixed registry,
`manager_synthesize` returns a failure result whose message names the
unknown identifier, and the result is one fixed record independent of
every adapter's behavior — no adapter is consulted. -/
theorem claim5_unknown_provider (adapters : String → AdapterBehavior)
    (provider_id text voice_id : String) (streaming : Bool)
    (h : provider_id ∉ knownProviders) :
    (manager_synthesize adapters provider_id text voice_id
        streaming).success = false ∧
    (manager_synthesize adapters provider_id text voice_id
        streaming).error_message = "Unknown provider: " ++ provider_id ∧
    ∀ adapters' : String → AdapterBehavior,
      manager_synthesize adapters provider_id text voice_id streaming =
        manager_synthesize adapters' provider_id text voice_id streaming := by
  unfold manager_synthesize
  simp [h]

/-- A placeholder adapter family for the closed witnesses: every call
returns an inert failure record. -/
def trivialAdapters : String → AdapterBehavior := fun _ =>
  { run := fun _ _ => { success := false }
    runStreaming := fun _ _ => { success := false } }

/-- C5 witness: the spec's own example identifier. -/
theorem claim5_witness :
    "not_a_real_backend" ∉ knownProviders ∧
    (manager_synthesize trivialAdapters "not_a_real_backend" "hi" "v1"
        false).success = false ∧
    (manager_synthesize trivialAdapters "not_a_real_backend" "hi" "v1"
        false).error_message = "Unknown provider: not_a_real_backend" := by
  have hmem : "not_a_real_backend" ∉ knownProviders := by decide
  have h := claim5_unknown_provider trivialAdapters "not_a_real_backend"
    "hi" "v1" false hmem
  exact ⟨hmem, h.1, h.2.1⟩

/-- C4 witness: the spec's three-config scenario — the second backend
unknown — applied through the theorem: the result list has length 3 and
the middle entry is the manufactured unknown-backend failure. -/
theorem claim4_witness :
    (synthesize_multiple trivialAdapters "hi"
        [⟨"elevenlabs", "v1"⟩, ⟨"not_a_real_backend", "v2"⟩,
          ⟨"google", "v3"⟩] false).length = 3 ∧
    (synthesize_multiple trivialAdapters "hi"
        [⟨"elevenlabs", "v1"⟩, ⟨"not_a_real_backend", "v2"⟩,
          ⟨"google", "v3"⟩] false)[1]? =
      some (manager_synthesize trivialAdapters "not_a_real_backend" "hi"
        "v2" false) := by
  have h := claim4_results_match_configs trivialAdapters "hi"
    [⟨"elevenlabs", "v1"⟩, ⟨"not_a_real_backend", "v2"⟩, ⟨"google", "v3"⟩]
    false
  exact ⟨h.1, h.2 1 ⟨"not_a_real_backend", "v2"⟩ rfl⟩

/-! ## Claim C6 -/

/-- C6 counterexample: a demo-mode synthesis returns success = true *and*
the non-empty informational message "DEMO MODE: Using simulated metrics",
so a successful result's error message is not always empty. -/
theorem claim6_counterexample :
    (elevenLabs_synthesize true {} (fun _ => none) "hi" "v1"
        "eleven_multilingual_v2" { outcome := .exception "" }).success
      = true ∧
    (elevenLabs_synthesize true {} (fun _ => none) "hi" "v1"
        "eleven_multilingual_v2" { outcome := .exception "" }).error_message
      = "DEMO MODE: Using simulated metrics" ∧
    (elevenLabs_synthesize true {} (fun _ => none) "hi" "v1"
        "eleven_multilingual_v2" { outcome := .exception "" }).error_message
      ≠ "" := by
  refine ⟨rfl, rfl, ?_⟩
  intro h
  simp [elevenLabs_synthesize, elevenLabs_demo_synthesis] at h

/-- C6 (amended): a successful result produced by a live (non-demo) API
path carries an empty error message; a demo-mode result is successful but
carries the fixed informational demo message instead. -/
theorem claim6_amended (r : DemoRand) (est : List ℕ → Option ℚ)
    (text voice_id model_id : String) (env : SynthEnv) (senv : StreamEnv)
    (penv : PollyEnv) :
    ((elevenLabs_synthesize false r est text voice_id model_id env).success
        = true →
      (elevenLabs_synthesize false r est text voice_id model_id
        env).error_message = "") ∧
    ((elevenLabs_synthesize_streaming false r est text voice_id model_id
        senv).success = true →
      (elevenLabs_synthesize_streaming false r est text voice_id model_id
        senv).error_message = "") ∧
    ((amazonPolly_synthesize_streaming false r est text voice_id
        penv).success = true →
      (amazonPolly_synthesize_streaming false r est text voice_id
        penv).error_message = "") ∧
    (elevenLabs_synthesize true r est text voice_id model_id env).success
      = true ∧
    (elevenLabs_synthesize true r est text voice_id model_id
      env).error_message = "DEMO MODE: Using simulated metrics" := by
  refine ⟨?_, ?_, ?_, rfl, rfl⟩
  · intro hsucc
    rcases hout : env.outcome with msg | ⟨status, bodyText, content, headers⟩
    · simp [elevenLabs_synthesize, hout] at hsucc
    · by_cases hs : status = 200
      · simp [elevenLabs_synthesize, hout, hs]
      · simp [elevenLabs_synthesize, hout, hs] at hsucc
  · intro hsucc
    rcases hout : senv.outcome with msg |
      ⟨status, bodyText, headers, chunks, tEnd⟩
    · simp [elevenLabs_synthesize_streaming, hout] at hsucc
    · by_cases hs : status = 200
      · simp [elevenLabs_synthesize_streaming, hout, hs]
      · simp [elevenLabs_synthesize_streaming, hout, hs] at hsucc
  · intro hsucc
    rcases hout : penv.outcome with msg | _ | ⟨chunks, tEnd⟩
    · simp [amazonPolly_synthesize_streaming, hout] at hsucc
    · simp [amazonPolly_synthesize_streaming, hout] at hsucc
    · simp [amazonPolly_synthesize_streaming, hout]

/-- C6 witness: the amended theorem at a concrete live-path success. -/
theorem claim6_witness :
    (elevenLabs_synthesize false {} (fun _ => none) "hi" "v1" "m"
        { t0 := 0, t1 := 40, t2 := 90,
          outcome := .response 200 "" [7] [] }).error_message = "" := by
  exact (claim6_amended {} (fun _ => none) "hi" "v1" "m"
    { t0 := 0, t1 := 40, t2 := 90, outcome := .response 200 "" [7] [] }
    { outcome := .exception "" } { outcome := .exception "" }).1 rfl

/-! ## Claim C7 -/

/-- The metrics record a streaming path has built just before entering its
read loop: streaming flag, text metrics, and the captured TTFB. -/
def streamInitMetrics (text : String) (ttfb : ℚ) : TTSMetrics :=
  { is_streaming := true
    character_count := text.length
    word_count := wordCount text
    time_to_first_byte := some ttfb }

/-- On a live status-200 streaming response, the ElevenLabs adapter
succeeds and its metrics are the post-loop streaming metrics of the
accumulated chunks. -/
theorem elevenLabs_streaming_200_eq (r : DemoRand)
    (est : List ℕ → Option ℚ) (text voice_id model_id bodyText : String)
    (headers : List (String × String)) (chunks : List StreamChunk)
    (tEnd : ℚ) (senv : StreamEnv)
    (hout : senv.outcome = .response 200 bodyText headers chunks tEnd) :
    (elevenLabs_synthesize_streaming false r est text voice_id model_id
        senv).success = true ∧
    (elevenLabs_synthesize_streaming false r est text voice_id model_id
        senv).metrics =
      streamingMetrics (streamInitMetrics text (senv.t1 - senv.t0)) est
        senv.t0 tEnd (iterContentLoop senv.t0 chunks) := by
  unfold elevenLabs_synthesize_streaming streamInitMetrics
  rw [hout]
  exact ⟨rfl, rfl⟩

/-- Projections of the post-loop streaming metrics, via preservation of the
raw fields across the derivation step. -/
theorem streamingMetrics_fields (m1 : TTSMetrics)
    (est : List ℕ → Option ℚ) (t0 tEnd : ℚ) (acc : ChunkAccum) :
    (streamingMetrics m1 est t0 tEnd acc).chunk_timings = acc.timings ∧
    (streamingMetrics m1 est t0 tEnd acc).chunk_count =
      some acc.datas.length ∧
    (streamingMetrics m1 est t0 tEnd acc).time_to_first_audio = acc.ttfa ∧
    (streamingMetrics m1 est t0 tEnd acc).avg_chunk_size =
      some (if acc.sizes ≠ [] then meanQ (acc.sizes.map (· : ℕ → ℚ))
        else 0) := by
  unfold streamingMetrics
  exact ⟨(calc_preserves _).2.2.2.2.1, (calc_preserves _).2.2.2.2.2.1,
    (calc_preserves _).2.1, (calc_preserves _).2.2.2.2.2.2⟩

/-- Arrival timestamps are read from a monotonic clock; when the trace's
clock values are non-decreasing, so are the recorded chunk timings. -/
theorem iterContentLoop_timings_sorted (t0 : ℚ) (cs : List StreamChunk)
    (hmono : List.Sorted (· ≤ ·) (cs.map StreamChunk.time)) :
    List.Sorted (· ≤ ·) (iterContentLoop t0 cs).timings := by
  rw [(iterContentLoop_spec t0 cs).1]
  have hp : cs.Pairwise (fun a b => a.time ≤ b.time) :=
    List.pairwise_map.mp hmono
  have hf : (cs.filter fun c => c.data ≠ []).Pairwise
      (fun a b => a.time ≤ b.time) :=
    List.Pairwise.sublist (List.filter_sublist _) hp
  exact List.Pairwise.map _ (fun a b hab => sub_le_sub_right hab t0) hf

/-- The loop records exactly one timing entry per collected chunk. -/
theorem iterContentLoop_count_eq (t0 : ℚ) (cs : List StreamChunk) :
    (iterContentLoop t0 cs).datas.length =
      (iterContentLoop t0 cs).timings.length := by
  rw [(iterContentLoop_spec t0 cs).1, (iterContentLoop_spec t0 cs).2.1]
  simp

/-- C7 (confirmed): a successful (status-200) natively streaming ElevenLabs
call records chunk-count equal to the length of the chunk-timing sequence,
and — the clock being monotonic, i.e. the observed chunk arrival times
non-decreasing — the chunk-timing sequence is monotonically
non-decreasing. -/
theorem claim7_streaming_invariant (r : DemoRand)
    (est : List ℕ → Option ℚ) (text voice_id model_id bodyText : String)
    (headers : List (String × String)) (chunks : List StreamChunk)
    (tEnd : ℚ) (senv : StreamEnv)
    (hout : senv.outcome = .response 200 bodyText headers chunks tEnd)
    (hmono : List.Sorted (· ≤ ·) (chunks.map StreamChunk.time)) :
    (elevenLabs_synthesize_streaming false r est text voice_id model_id
        senv).success = true ∧
    (elevenLabs_synthesize_streaming false r est text voice_id model_id
        senv).metrics.chunk_count =
      some (elevenLabs_synthesize_streaming false r est text voice_id
        model_id senv).metrics.chunk_timings.length ∧
    List.Sorted (· ≤ ·)
      (elevenLabs_synthesize_streaming false r est text voice_id model_id
        senv).metrics.chunk_timings := by
  have heq := elevenLabs_streaming_200_eq r est text voice_id model_id
    bodyText headers chunks tEnd senv hout
  have hf := streamingMetrics_fields
    (streamInitMetrics text (senv.t1 - senv.t0)) est senv.t0 tEnd
    (iterContentLoop senv.t0 chunks)
  refine ⟨heq.1, ?_, ?_⟩
  · rw [heq.2, hf.2.1, hf.1, iterContentLoop_count_eq]
  · rw [heq.2, hf.1]
    exact iterContentLoop_timings_sorted senv.t0 chunks hmono

/-- C7 witness: the theorem at a concrete two-chunk stream. -/
theorem claim7_witness :
    (elevenLabs_synthesize_streaming false {} (fun _ => none) "hi" "v1" "m"
        { t0 := 0, t1 := 30,
          outcome := .response 200 "" []
            [⟨40, [1]⟩, ⟨55, [2, 3]⟩] 60 }).metrics.chunk_count =
      some (elevenLabs_synthesize_streaming false {} (fun _ => none) "hi"
        "v1" "m"
        { t0 := 0, t1 := 30,
          outcome := .response 200 "" []
            [⟨40, [1]⟩, ⟨55, [2, 3]⟩] 60 }).metrics.chunk_timings.length ∧
    List.Sorted (· ≤ ·)
      (elevenLabs_synthesize_streaming false {} (fun _ => none) "hi" "v1"
        "m"
        { t0 := 0, t1 := 30,
          outcome := .response 200 "" []
            [⟨40, [1]⟩, ⟨55, [2, 3]⟩] 60 }).metrics.chunk_timings := by
  have h := claim7_streaming_invariant {} (fun _ => none) "hi" "v1" "m" ""
    [] [⟨40, [1]⟩, ⟨55, [2, 3]⟩] 60
    { t0 := 0, t1 := 30,
      outcome := .response 200 "" [] [⟨40, [1]⟩, ⟨55, [2, 3]⟩] 60 }
    rfl (by norm_num [List.Sorted])
  exact ⟨h.2.1, h.2.2⟩

/-! ## Claim C8 -/

/-- C8 counterexample: with total-synthesis-time 1000 ms > 0 and
audio-duration *present* (0.0 s — e.g. an empty decoded clip), the claim
prescribes realtime-factor = 0 / (1000/1000) = 0, but the code's truthiness
guard (`if self.audio_duration:`) treats the present zero as absent and
leaves realtime-factor null. -/
theorem claim8_counterexample :
    ({ total_synthesis_time := some 1000, character_count := 100,
        audio_duration := some 0 } : TTSMetrics).audio_duration
      = some 0 ∧
    (calculate_derived_metrics
        { total_synthesis_time := some 1000, character_count := 100,
          audio_duration := some 0 }).realtime_factor = none ∧
    (calculate_derived_metrics
        { total_synthesis_time := some 1000, character_count := 100,
          audio_duration := some 0 }).realtime_factor ≠
      some ((0 : ℚ) / (1000 / 1000)) := by
  have hrtf : (calculate_derived_metrics
      { total_synthesis_time := some 1000, character_count := 100,
        audio_duration := some 0 }).realtime_factor = none := by
    rw [(calc_throughput _).2]
    norm_num [derivedThroughputFields]
  refine ⟨rfl, hrtf, ?_⟩
  rw [hrtf]
  simp

/-- C8 (amended): chars-per-second is set exactly when total-synthesis-time
is present and positive and character-count is nonzero; realtime-factor is
set exactly when total-synthesis-time is present and positive and
audio-duration is present *and nonzero* (a present zero duration, being
falsy, leaves it untouched); in every other case both fields keep their
previous (null for a raw record) values. -/
theorem claim8_amended (m : TTSMetrics) :
    (∀ t : ℚ, m.total_synthesis_time = some t → 0 < t →
      m.character_count ≠ 0 →
      (calculate_derived_metrics m).chars_per_second =
        some (((m.character_count : ℚ) / t) * 1000)) ∧
    (∀ t d : ℚ, m.total_synthesis_time = some t → 0 < t →
      m.audio_duration = some d → d ≠ 0 →
      (calculate_derived_metrics m).realtime_factor =
        some (d / (t / 1000))) ∧
    (m.total_synthesis_time = none →
      (calculate_derived_metrics m).chars_per_second = m.chars_per_second ∧
      (calculate_derived_metrics m).realtime_factor = m.realtime_factor) ∧
    (∀ t : ℚ, m.total_synthesis_time = some t → ¬ 0 < t →
      (calculate_derived_metrics m).chars_per_second = m.chars_per_second ∧
      (calculate_derived_metrics m).realtime_factor = m.realtime_factor) ∧
    (∀ t : ℚ, m.total_synthesis_time = some t → m.character_count = 0 →
      (calculate_derived_metrics m).chars_per_second =
        m.chars_per_second) ∧
    (∀ t : ℚ, m.total_synthesis_time = some t → m.audio_duration = none →
      (calculate_derived_metrics m).realtime_factor = m.realtime_factor) ∧
    (∀ t : ℚ, m.total_synthesis_time = some t →
      m.audio_duration = some 0 →
      (calculate_derived_metrics m).realtime_factor =
        m.realtime_factor) := by
  refine ⟨?_, ?_, ?_, ?_, ?_, ?_, ?_⟩
  · intro t ht hpos hcc
    rw [(calc_throughput m).1]
    simp [derivedThroughputFields, ht, hpos, hcc]
  · intro t d ht hpos hd hdz
    rw [(calc_throughput m).2]
    simp [derivedThroughputFields, ht, hpos, hd, hdz]
  · intro ht
    rw [(calc_throughput m).1, (calc_throughput m).2]
    simp [derivedThroughputFields, ht]
  · intro t ht hnpos
    rw [(calc_throughput m).1, (calc_throughput m).2]
    simp [derivedThroughputFields, ht, hnpos]
  · intro t ht hcc
    rw [(calc_throughput m).1]
    by_cases hpos : 0 < t <;>
      simp [derivedThroughputFields, ht, hcc, hpos]
  · intro t ht hd
    rw [(calc_throughput m).2]
    by_cases hpos : 0 < t <;> simp [derivedThroughputFields, ht, hd, hpos]
  · intro t ht hd
    rw [(calc_throughput m).2]
    by_cases hpos : 0 < t <;> simp [derivedThroughputFields, ht, hd, hpos]

/-- C8 witness: the spec's two worked examples through the amended theorem:
100 characters in 500 ms give 200 chars/s, and 2.0 s of audio synthesized
in 1000 ms give realtime-factor 2. -/
theorem claim8_witness :
    (calculate_derived_metrics
        { total_synthesis_time := some 500,
          character_count := 100 }).chars_per_second = some 200 ∧
    (calculate_derived_metrics
        { total_synthesis_time := some 1000, character_count := 100,
          audio_duration := some 2 }).realtime_factor = some 2 := by
  have h1 := (claim8_amended
    { total_synthesis_time := some 500, character_count := 100 }).1
    500 rfl (by norm_num) (by norm_num)
  have h2 := (claim8_amended
    { total_synthesis_time := some 1000, character_count := 100,
      audio_duration := some 2 }).2.1 1000 2 rfl (by norm_num) rfl
    (by norm_num)
  constructor
  · rw [h1]
    norm_num
  · rw [h2]
    norm_num

/-! ## Claim C9 -/

/-- The percentile read index ⌊p·n⌋ is in range for a non-empty sample. -/
theorem percentile_index_lt (n p : ℕ) (hp : p < 100) (hn : 0 < n) :
    n * p / 100 < n := by
  have h : n * p < n * 100 := mul_lt_mul_of_pos_left hp hn
  exact (Nat.div_lt_iff_lt_mul (by norm_num)).mpr h

/-- C9 (confirmed): the percentile block sorts the non-null sample
ascending (the sorted list is an ordered permutation of it) and reads index
⌊p·n⌋, which is always in range; p95 is produced exactly when n ≥ 20 and
p99 exactly when n ≥ 100, each absent otherwise. -/
theorem claim9_percentile_policy (times : List (Option ℚ)) :
    List.Sorted (· ≤ ·)
      (List.insertionSort (· ≤ ·) (times.filterMap id)) ∧
    (List.insertionSort (· ≤ ·) (times.filterMap id)).Perm
      (times.filterMap id) ∧
    ((times.filterMap id).length < 20 →
      (computePercentiles times).2.1 = none) ∧
    (20 ≤ (times.filterMap id).length →
      (computePercentiles times).2.1 =
        some ((List.insertionSort (· ≤ ·) (times.filterMap id)).getD
          ((times.filterMap id).length * 95 / 100) 0) ∧
      (times.filterMap id).length * 95 / 100 <
        (times.filterMap id).length) ∧
    ((times.filterMap id).length < 100 →
      (computePercentiles times).2.2 = none) ∧
    (100 ≤ (times.filterMap id).length →
      (computePercentiles times).2.2 =
        some ((List.insertionSort (· ≤ ·) (times.filterMap id)).getD
          ((times.filterMap id).length * 99 / 100) 0) ∧
      (times.filterMap id).length * 99 / 100 <
        (times.filterMap id).length) := by
  have hlen : (List.insertionSort (· ≤ ·) (times.filterMap id)).length =
      (times.filterMap id).length :=
    List.length_insertionSort _ _
  refine ⟨List.sorted_insertionSort _ _, List.perm_insertionSort _ _,
    ?_, ?_, ?_, ?_⟩
  · intro h20
    unfold computePercentiles
    by_cases hnil : List.insertionSort (· ≤ ·) (times.filterMap id) = []
    · simp [hnil]
    · simp only [hnil, ne_eq, not_false_iff, if_true]
      rw [hlen]
      simp [Nat.not_le.mpr h20]
  · intro h20
    have hnil : List.insertionSort (· ≤ ·) (times.filterMap id) ≠ [] := by
      intro hcon
      have hzero : (times.filterMap id).length = 0 := by
        rw [← hlen, hcon]
        rfl
      omega
    constructor
    · unfold computePercentiles
      simp only [hnil, ne_eq, not_false_iff, if_true]
      rw [hlen]
      simp [h20]
    · exact percentile_index_lt ((times.filterMap id).length) 95
        (by norm_num) (by omega)
  · intro h100
    unfold computePercentiles
    by_cases hnil : List.insertionSort (· ≤ ·) (times.filterMap id) = []
    · simp [hnil]
    · simp only [hnil, ne_eq, not_false_iff, if_true]
      rw [hlen]
      simp [Nat.not_le.mpr h100]
  · intro h100
    have hnil : List.insertionSort (· ≤ ·) (times.filterMap id) ≠ [] := by
      intro hcon
      have hzero : (times.filterMap id).length = 0 := by
        rw [← hlen, hcon]
        rfl
      omega
    constructor
    · unfold computePercentiles
      simp only [hnil, ne_eq, not_false_iff, if_true]
      rw [hlen]
      simp [h100]
    · exact percentile_index_lt ((times.filterMap id).length) 99
        (by norm_num) (by omega)

/-- Dropping nulls from an all-`some` constant sample keeps every entry. -/
theorem filterMap_id_replicate_some (n : ℕ) (x : ℚ) :
    (List.replicate n (some x)).filterMap id = List.replicate n x := by
  induction n with
  | zero => rfl
  | succ k ih => simp [List.replicate_succ, ih]

/-- C9 witness: the spec's suppression examples through the theorem — a
sample of 10 yields neither p95 nor p99, a sample of 25 yields p95 (index
⌊0.95·25⌋ = 23 of the sorted sample) but no p99. -/
theorem claim9_witness :
    (computePercentiles (List.replicate 10 (some (3 : ℚ)))).2.1 = none ∧
    (computePercentiles (List.replicate 10 (some (3 : ℚ)))).2.2 = none ∧
    (computePercentiles (List.replicate 25 (some (3 : ℚ)))).2.1 =
      some ((List.insertionSort (· ≤ ·)
        ((List.replicate 25 (some (3 : ℚ))).filterMap id)).getD 23 0) ∧
    (computePercentiles (List.replicate 25 (some (3 : ℚ)))).2.2 = none := by
  have h10 := claim9_percentile_policy (List.replicate 10 (some (3 : ℚ)))
  have h25 := claim9_percentile_policy (List.replicate 25 (some (3 : ℚ)))
  have hl10 : ((List.replicate 10 (some (3 : ℚ))).filterMap id).length
      = 10 := by
    rw [filterMap_id_replicate_some]
    simp
  have hl25 : ((List.replicate 25 (some (3 : ℚ))).filterMap id).length
      = 25 := by
    rw [filterMap_id_replicate_some]
    simp
  refine ⟨h10.2.2.1 (by rw [hl10]; norm_num),
    h10.2.2.2.2.1 (by rw [hl10]; norm_num), ?_,
    h25.2.2.2.2.1 (by rw [hl25]; norm_num)⟩
  have h := (h25.2.2.2.1 (by rw [hl25]; norm_num)).1
  rw [h, hl25]

/-! ## Claim C10 -/

/-- When every delivered increment is empty, the iterator loop accumulates
nothing and never captures a time-to-first-audio. -/
theorem iterContentLoop_all_empty (t0 : ℚ) (cs : List StreamChunk)
    (h : ∀ c ∈ cs, c.data = []) :
    iterContentLoop t0 cs = ⟨[], [], [], none⟩ := by
  induction cs with
  | nil => rfl
  | cons c rest ih =>
    have hc : c.data = [] := h c (by simp)
    rw [iterContentLoop, if_pos hc]
    exact ih fun x hx => h x (by simp [hx])

/-- When every read is empty, the Polly read loop breaks immediately and
accumulates nothing. -/
theorem pollyReadLoop_all_empty (t0 : ℚ) (cs : List StreamChunk)
    (h : ∀ c ∈ cs, c.data = []) :
    pollyReadLoop t0 cs = ⟨[], [], [], none⟩ := by
  cases cs with
  | nil => rfl
  | cons c rest =>
    have hc : c.data = [] := h c (by simp)
    rw [pollyReadLoop, if_pos hc]

/-- On a live response carrying an audio stream, the Polly streaming
adapter succeeds and its metrics are the post-loop streaming metrics of
the reads before the first empty one. -/
theorem amazonPolly_streaming_eq (r : DemoRand)
    (est : List ℕ → Option ℚ) (text voice_id : String)
    (chunks : List StreamChunk) (tEnd : ℚ) (penv : PollyEnv)
    (hout : penv.outcome = .audioStream chunks tEnd) :
    (amazonPolly_synthesize_streaming false r est text voice_id
        penv).success = true ∧
    (amazonPolly_synthesize_streaming false r est text voice_id
        penv).metrics =
      streamingMetrics (streamInitMetrics text (penv.t1 - penv.t0)) est
        penv.t0 tEnd (pollyReadLoop penv.t0 chunks) := by
  unfold amazonPolly_synthesize_streaming streamInitMetrics
  rw [hout]
  exact ⟨rfl, rfl⟩

/-- The post-loop metrics of an empty accumulation: zero chunk count,
empty timings, average chunk size 0 (not null), no time-to-first-audio. -/
theorem streamingMetrics_empty_accum (m1 : TTSMetrics)
    (est : List ℕ → Option ℚ) (t0 tEnd : ℚ) :
    (streamingMetrics m1 est t0 tEnd ⟨[], [], [], none⟩).chunk_count =
      some 0 ∧
    (streamingMetrics m1 est t0 tEnd ⟨[], [], [], none⟩).chunk_timings
      = [] ∧
    (streamingMetrics m1 est t0 tEnd ⟨[], [], [], none⟩).avg_chunk_size =
      some 0 ∧
    (streamingMetrics m1 est t0 tEnd
      ⟨[], [], [], none⟩).time_to_first_audio = none := by
  have hf := streamingMetrics_fields m1 est t0 tEnd ⟨[], [], [], none⟩
  refine ⟨hf.2.1, hf.1, ?_, hf.2.2.1⟩
  rw [hf.2.2.2]
  simp

/-- C10 (confirmed): a streaming call whose successful (status-200 /
stream-bearing) response delivers zero non-empty chunks returns
success = true with chunk-count 0, an empty chunk-timing sequence,
average-chunk-size 0 (not null), and a null time-to-first-audio — for the
ElevenLabs adapter and the Amazon Polly adapter alike. -/
theorem claim10_empty_stream (r : DemoRand) (est : List ℕ → Option ℚ)
    (text voice_id model_id bodyText : String)
    (headers : List (String × String)) (chunks pchunks : List StreamChunk)
    (tEnd ptEnd : ℚ) (senv : StreamEnv) (penv : PollyEnv)
    (h1 : senv.outcome = .response 200 bodyText headers chunks tEnd)
    (h2 : ∀ c ∈ chunks, c.data = [])
    (h3 : penv.outcome = .audioStream pchunks ptEnd)
    (h4 : ∀ c ∈ pchunks, c.data = []) :
    (elevenLabs_synthesize_streaming false r est text voice_id model_id
        senv).success = true ∧
    (elevenLabs_synthesize_streaming false r est text voice_id model_id
        senv).metrics.chunk_count = some 0 ∧
    (elevenLabs_synthesize_streaming false r est text voice_id model_id
        senv).metrics.chunk_timings = [] ∧
    (elevenLabs_synthesize_streaming false r est text voice_id model_id
        senv).metrics.avg_chunk_size = some 0 ∧
    (elevenLabs_synthesize_streaming false r est text voice_id model_id
        senv).metrics.time_to_first_audio = none ∧
    (amazonPolly_synthesize_streaming false r est text voice_id
        penv).success = true ∧
    (amazonPolly_synthesize_streaming false r est text voice_id
        penv).metrics.chunk_count = some 0 ∧
    (amazonPolly_synthesize_streaming false r est text voice_id
        penv).metrics.chunk_timings = [] ∧
    (amazonPolly_synthesize_streaming false r est text voice_id
        penv).metrics.avg_chunk_size = some 0 ∧
    (amazonPolly_synthesize_streaming false r est text voice_id
        penv).metrics.time_to_first_audio = none := by
  have heq := elevenLabs_streaming_200_eq r est text voice_id model_id
    bodyText headers chunks tEnd senv h1
  have hpeq := amazonPolly_streaming_eq r est text voice_id pchunks ptEnd
    penv h3
  have hacc := iterContentLoop_all_empty senv.t0 chunks h2
  have hpacc := pollyReadLoop_all_empty penv.t0 pchunks h4
  have he := streamingMetrics_empty_accum
    (streamInitMetrics text (senv.t1 - senv.t0)) est senv.t0 tEnd
  have hpe := streamingMetrics_empty_accum
    (streamInitMetrics text (penv.t1 - penv.t0)) est penv.t0 ptEnd
  rw [heq.2, hpeq.2, hacc, hpacc]
  exact ⟨heq.1, he.1, he.2.1, he.2.2.1, he.2.2.2, hpeq.1, hpe.1,
    hpe.2.1, hpe.2.2.1, hpe.2.2.2⟩

/-- C10 witness: the theorem at concrete empty-body traces (one empty
increment for ElevenLabs, one empty read for Polly). -/
theorem claim10_witness :
    (elevenLabs_synthesize_streaming false {} (fun _ => none) "hi" "v1" "m"
        { t0 := 0, t1 := 30,
          outcome := .response 200 "" [] [⟨40, []⟩] 60 }).success = true ∧
    (elevenLabs_synthesize_streaming false {} (fun _ => none) "hi" "v1" "m"
        { t0 := 0, t1 := 30,
          outcome := .response 200 "" [] [⟨40, []⟩]
            60 }).metrics.avg_chunk_size = some 0 ∧
    (amazonPolly_synthesize_streaming false {} (fun _ => none) "hi" "v1"
        { t0 := 0, t1 := 30,
          outcome := .audioStream [⟨40, []⟩]
            60 }).metrics.time_to_first_audio = none := by
  have h := claim10_empty_stream {} (fun _ => none) "hi" "v1" "m" "" []
    [⟨40, []⟩] [⟨40, []⟩] 60 60
    { t0 := 0, t1 := 30, outcome := .response 200 "" [] [⟨40, []⟩] 60 }
    { t0 := 0, t1 := 30, outcome := .audioStream [⟨40, []⟩] 60 }
    rfl (by intro c hc; simp at hc; rw [hc]) rfl
    (by intro c hc; simp at hc; rw [hc])
  exact ⟨h.1, h.2.2.2.1, h.2.2.2.2.2.2.2.2.2⟩
